import Mathlib

/-!
Verification development for the xolotl 1D PETSc solver handler and its
collaborating test fixtures.  Scalars are modelled as rationals; machine
integers are modelled as natural numbers or integers.  Definitions are
shallow embeddings of the C++ source in
src/xolotl/xolotlSolver/solverhandler/PetscSolver1DHandler.cpp and the
test sources under src/tests; parts of the repository that are referenced
but absent from the visible source tree are modelled from the written
specification and carry a doc comment saying so.
-/

namespace Xolotl

/-- Modelled from the spec: xolotlCore::equal (from MathUtils, absent from the
visible source) is the temperature change test; the specification states that
exact floating-point equality is used as the change test, with no tolerance. -/
def equal (a b : ℚ) : Bool :=
  a == b

/-- Observable operations performed by PetscSolver1DHandler::updateConcentration
at one grid point, in program order. -/
inductive DriverEvent where
  /-- network->setTemperature(temperature) -/
  | setTemperature
  /-- mutationHandler->updateTrapMutationRate(network) -/
  | refreshTrapMutationRate
  /-- burstingHandler->updateBurstingRate(network) -/
  | refreshBurstingRate
  /-- network->updateConcentrationsFromArray(concOffset) -/
  | ingestConcentrations
  /-- updatedConcOffset[fluxIndex] += incidentFluxVector[xi - surfacePosition] -/
  | addIncidentFlux
  /-- diffusionHandler->computeDiffusion(...) -/
  | computeDiffusion
  /-- advectionHandlers[l]->computeAdvection(...) -/
  | computeAdvection (l : ℕ)
  /-- mutationHandler->computeTrapMutation(...) -/
  | computeTrapMutation
  /-- burstingHandler->computeBursting(...) -/
  | computeBursting
  /-- updatedConcOffset[id-1] += allReactants->at(i)->getTotalFlux() -/
  | addReactionFlux (i : ℕ)
  /-- updatedConcOffset[momId-1] += superClusters[i]->getMomentumFlux() -/
  | addMomentFlux (i : ℕ)
deriving DecidableEq, Repr

/-- Static parameters of the 1D solver handler that the per-point loop body of
updateConcentration reads. -/
structure DriverParams where
  /-- dof = network->size() + superClusters.size() -/
  dof : ℕ
  /-- networkSize = network->size() -/
  networkSize : ℕ
  /-- superClusters.size() -/
  numSuper : ℕ
  /-- advectionHandlers.size() -/
  numAdvection : ℕ
  /-- surfacePosition member -/
  surfacePosition : ℕ
  /-- xSize = grid.size() -/
  xSize : ℕ
  /-- fluxIndex = fluxHandler->getIncidentFluxClusterIndex() -/
  fluxIndex : ℕ

/-- Values produced at one grid point by the temperature handler, the physics
handlers and the reaction network.  The handler implementations are outside
the visible source; per the specification their computeContribution adds into
the flux vector, so each is modelled by the vector of increments it adds. -/
structure PointEnv where
  /-- temperatureHandler->getTemperature(gridPosition, ftime) -/
  temperature : ℚ
  /-- incidentFluxVector[xi - surfacePosition] -/
  incident : ℚ
  /-- increment vector added by diffusionHandler->computeDiffusion -/
  diffDelta : ℕ → ℚ
  /-- increment vector added by advectionHandlers[l]->computeAdvection -/
  advecDelta : ℕ → ℕ → ℚ
  /-- increment vector added by mutationHandler->computeTrapMutation -/
  mutationDelta : ℕ → ℚ
  /-- increment vector added by burstingHandler->computeBursting -/
  burstDelta : ℕ → ℚ
  /-- allReactants->at(i)->getTotalFlux() after ingestion -/
  totalFlux : ℕ → ℚ
  /-- allReactants->at(i)->getId(), 1-based -/
  clusterId : ℕ → ℕ
  /-- superClusters[i]->getMomentumFlux() after ingestion -/
  momentFlux : ℕ → ℚ
  /-- superClusters[i]->getMomentumId(), 1-based -/
  momentId : ℕ → ℕ

/-- Boundary test of the per-point loops: xi <= surfacePosition or
xi == xSize - 1 (PetscSolver1DHandler.cpp, the boundary-conditions check). -/
def isBoundaryPoint (P : DriverParams) (xi : ℕ) : Bool :=
  xi ≤ P.surfacePosition || xi == P.xSize - 1

/-- Compound assignment v[k] += x on a row viewed by DOF index. -/
def addAt (v : ℕ → ℚ) (k : ℕ) (x : ℚ) : ℕ → ℚ :=
  fun j => if j = k then v j + x else v j

/-- Pointwise v += w, modelling a handler adding its increments into the
flux vector. -/
def addVec (v w : ℕ → ℚ) : ℕ → ℚ :=
  fun j => v j + w j

/-- Flux vector written at an active grid point by the body of the loop in
updateConcentration: incident flux, diffusion, advection handlers in order,
trap-mutation, bursting, the reaction flux of every entry of allReactants,
then the momentum flux of every super cluster; every write is an addition
into the row F0 of the output vector F. -/
def activeFluxRow (P : DriverParams) (E : PointEnv) (F0 : ℕ → ℚ) : ℕ → ℚ :=
  let F1 := addAt F0 P.fluxIndex E.incident
  let F2 := addVec F1 E.diffDelta
  let F3 := (List.range P.numAdvection).foldl (fun v l => addVec v (E.advecDelta l)) F2
  let F4 := addVec F3 E.mutationDelta
  let F5 := addVec F4 E.burstDelta
  let F6 := (List.range P.networkSize).foldl
    (fun v i => addAt v (E.clusterId i - 1) (E.totalFlux i)) F5
  (List.range P.numSuper).foldl
    (fun v i => addAt v (E.momentId i - 1) (E.momentFlux i)) F6

/-- Temperature refresh in the per-point loops: when the temperature from the
temperature handler is not equal to lastTemperature, the driver calls
setTemperature, updateTrapMutationRate and updateBurstingRate, then stores
the temperature into lastTemperature. -/
def tempRefresh (temperature lastTemperature : ℚ) : ℚ × List DriverEvent :=
  if equal temperature lastTemperature then
    (lastTemperature, [])
  else
    (temperature,
      [DriverEvent.setTemperature, DriverEvent.refreshTrapMutationRate,
        DriverEvent.refreshBurstingRate])

/-- Trace of operations performed at one active grid point, in the order of
the loop body of PetscSolver1DHandler::updateConcentration. -/
def activeTrace (P : DriverParams) (E : PointEnv) (lastTemperature : ℚ) : List DriverEvent :=
  (tempRefresh E.temperature lastTemperature).2
    ++ [DriverEvent.ingestConcentrations, DriverEvent.addIncidentFlux,
        DriverEvent.computeDiffusion]
    ++ (List.range P.numAdvection).map DriverEvent.computeAdvection
    ++ [DriverEvent.computeTrapMutation, DriverEvent.computeBursting]
    ++ (List.range P.networkSize).map DriverEvent.addReactionFlux
    ++ (List.range P.numSuper).map DriverEvent.addMomentFlux

/-- One iteration of the grid-point loop of
PetscSolver1DHandler::updateConcentration: at a boundary point every DOF of
the output row is assigned 1.0 * concOffset[i] and the iteration continues
without touching the network or any handler; at an active point the
temperature is refreshed if it changed, the concentrations are ingested and
the handler chain adds into the output row.  Returns the written output row,
the new lastTemperature, and the trace of network/handler operations. -/
def updateConcentrationPoint (P : DriverParams) (E : PointEnv) (lastTemperature : ℚ)
    (concOffset F0 : ℕ → ℚ) (xi : ℕ) : (ℕ → ℚ) × ℚ × List DriverEvent :=
  if isBoundaryPoint P xi then
    (fun i => if i < P.dof then 1 * concOffset i else F0 i, lastTemperature, [])
  else
    (activeFluxRow P E F0, (tempRefresh E.temperature lastTemperature).1,
      activeTrace P E lastTemperature)

/-- Trace claimed by the specification sentence for the assembly driver,
stated for comparison with the source-derived trace: ingestion first, then
the conditional temperature-dependent refreshes, then the handler chain. -/
def specOrderedTrace (P : DriverParams) (E : PointEnv) (lastTemperature : ℚ) : List DriverEvent :=
  [DriverEvent.ingestConcentrations]
    ++ (tempRefresh E.temperature lastTemperature).2
    ++ [DriverEvent.addIncidentFlux, DriverEvent.computeDiffusion]
    ++ (List.range P.numAdvection).map DriverEvent.computeAdvection
    ++ [DriverEvent.computeTrapMutation, DriverEvent.computeBursting]
    ++ (List.range P.networkSize).map DriverEvent.addReactionFlux
    ++ (List.range P.numSuper).map DriverEvent.addMomentFlux

/-- Composition of a PSI cluster: counts of helium, vacancies and
interstitials.  Identity of the clusters of the simple test network. -/
structure Composition where
  he : ℕ
  v : ℕ
  i : ℕ
deriving DecidableEq, Repr

/-- Reactant list built by the SimpleReactionNetwork test fixture
(src/tests/reactants/SimpleReactionNetwork.cpp): He clusters of sizes 1..10,
then V clusters of sizes 1..10, then I clusters of sizes 1..10, then HeV
clusters with numV = 1..10 outer and numHe inner such that
numHe + numV <= 10. -/
def simpleNetworkReactants : List Composition :=
  ((List.range 10).map (fun k => ⟨k + 1, 0, 0⟩))
    ++ ((List.range 10).map (fun k => ⟨0, k + 1, 0⟩))
    ++ ((List.range 10).map (fun k => ⟨0, 0, k + 1⟩))
    ++ ((List.range 10).flatMap (fun vk =>
          (List.range (10 - (vk + 1))).map (fun hk => ⟨hk + 1, vk + 1, 0⟩)))

/-- Expected connectivity row of the size-2 vacancy cluster, transcribed from
the connectivityExpected array of the checkConnectivity test
(src/tests/reactants/VClusterTester.cpp); only the first 75 entries, the ones
the test actually compares against reactionConnectivity (the network holds 75
reactants), are transcribed: He rows, V rows, I rows, then the 45 HeV rows. -/
def connectivityExpected : List ℕ :=
  [1, 1, 1, 1, 1, 1, 1, 1, 0, 0,
   1, 1, 1, 1, 1, 1, 1, 1, 0, 0,
   1, 1, 1, 1, 1, 1, 1, 1, 1, 1,
   0, 0, 0, 0, 0, 0, 0, 0, 0, 0, 0, 0, 0, 0, 0, 0, 0, 0, 0, 0, 0,
   0, 0, 0, 0, 0, 0, 0, 0, 0, 0, 0, 0, 0, 0, 0, 0, 0, 0, 0, 0, 0,
   0, 0, 0]

/-- Modelled from the spec: the connectivity algorithm of PSICluster and
VCluster is absent from the visible source; the specification describes
reaction discovery as composition arithmetic (an edge exists when the
composition sum, with vacancy-interstitial annihilation, is a tracked cluster
or annihilates completely), and the test notes that the VCluster type only
reacts with mixed HeV clusters when it is a single vacancy.  This predicate
decides whether the size-2 vacancy cluster couples to reactant b. -/
def vTwoCouples (b : Composition) : Bool :=
  if 0 < b.he && 0 < b.v then
    false
  else
    let sumV := b.v + 2
    let netV := sumV - b.i
    let netI := b.i - sumV
    simpleNetworkReactants.contains ⟨b.he, netV, netI⟩
      || (b.he == 0 && netV == 0 && netI == 0)

/-- Cluster population of a reaction network: the number of concrete clusters
and the number of super clusters. -/
structure NetworkLayout where
  nConcrete : ℕ
  nSuper : ℕ

/-- Modelled from the spec: network->size() counts every cluster of the
network; the super clusters are members of the network (the flux loop of
updateConcentration walks all networkSize entries of allReactants, super
clusters included), so size is the concrete count plus the super count. -/
def NetworkLayout.size (n : NetworkLayout) : ℕ :=
  n.nConcrete + n.nSuper

/-- Modelled from the spec: cluster ids are dense and 1-based and super
clusters occupy the final positions, so the 1-based id of the k-th super
cluster follows the last concrete cluster id. -/
def NetworkLayout.superId (n : NetworkLayout) (k : ℕ) : ℕ :=
  n.nConcrete + k + 1

/-- Modelled from the spec: the momentum ids of the super clusters are
deterministic offsets following the last cluster id, so the 1-based momentum
id of the k-th super cluster is size + k + 1. -/
def NetworkLayout.momentId (n : NetworkLayout) (k : ℕ) : ℕ :=
  n.size + k + 1

/-- DOF count computed in PetscSolver1DHandler::createSolverContext:
network->size() + network->getAll(NESuperType).size(). -/
def dofCreateSolverContext (n : NetworkLayout) : ℕ :=
  n.size + n.nSuper

/-- DOF count computed in PetscSolver1DHandler::initializeConcentration:
network->size() + superClusters.size(). -/
def dofInitializeConcentration (n : NetworkLayout) : ℕ :=
  n.size + n.nSuper

/-- DOF count computed in PetscSolver1DHandler::updateConcentration:
networkSize + superClusters.size(). -/
def dofUpdateConcentration (n : NetworkLayout) : ℕ :=
  n.size + n.nSuper

/-- DOF count computed in PetscSolver1DHandler::computeDiagonalJacobian:
networkSize + superClusters.size(). -/
def dofDiagonalJacobian (n : NetworkLayout) : ℕ :=
  n.size + n.nSuper

/-- Transcription loop of computeDiagonalJacobian over one derivative column
map row: for each column id in order, reactingPartialsForCluster receives
clusterPartials[col] and clusterPartials[col] is immediately reset to 0.0.
Returns the final clusterPartials buffer and the copied-out values. -/
def transcribeRow : List ℕ → (ℕ → ℚ) → (ℕ → ℚ) × List ℚ
  | [], buf => (buf, [])
  | col :: rest, buf =>
      let out := buf col
      let next := transcribeRow rest (Function.update buf col 0)
      (next.1, out :: next.2)

/-- Concentration row written by PetscSolver1DHandler::initializeConcentration
at grid point i on a cold start (no prior concentration group in the file):
every DOF is first set to 0.0, then, when the single-vacancy cluster lookup
succeeded and i is an interior active point (i > surfacePosition and
i < xSize - 1), the slot vacancyIndex = id - 1 receives initialVConc. -/
def initializeConcentrationPoint (dof surfacePosition xSize : ℕ)
    (vacancyIndex : Option ℕ) (initialVConc : ℚ) (i : ℕ) : List ℚ :=
  let base := List.replicate dof (0 : ℚ)
  match vacancyIndex with
  | none => base
  | some vi =>
      if surfacePosition < i ∧ i < xSize - 1 then base.set vi initialVConc else base

/-- Cold-start concentration rows over the locally owned points xs..xs+xm-1. -/
def initializeConcentrationCold (dof surfacePosition xSize : ℕ)
    (vacancyIndex : Option ℕ) (initialVConc : ℚ) (xs xm : ℕ) : List (List ℚ) :=
  (List.range xm).map
    (fun k => initializeConcentrationPoint dof surfacePosition xSize vacancyIndex
      initialVConc (xs + k))

/-- A (grid index, component) coordinate of MatSetValuesStencil. -/
structure StencilLoc where
  i : ℤ
  c : ℕ
deriving DecidableEq, Repr

/-- One MatSetValuesStencil call: row coordinate, column coordinates, values. -/
structure MatStencilCall where
  row : StencilLoc
  cols : List StencilLoc
  vals : List ℚ
deriving DecidableEq, Repr

/-- State of one advection handler read by computeOffDiagonalJacobian: its
number of advecting clusters, their DOF indices, the first entry of
getStencilForAdvection, whether the current grid position is on the sink,
and the partial-derivative values it produced. -/
structure AdvectionHandlerModel where
  nAdvec : ℕ
  indices : ℕ → ℕ
  stencil0 : ℤ
  onSink : Bool
  vals : ℕ → ℚ

/-- MatSetValuesStencil calls issued for one advection handler at active grid
point xi by PetscSolver1DHandler::computeOffDiagonalJacobian: for every
advecting cluster i the row is (xi, advecIndices[i]); on the sink the two
columns are (xi - advecStencil[0]) and (xi + advecStencil[0]), otherwise they
are xi itself and xi + advecStencil[0]; the values are
advecVals[2*i] and advecVals[2*i+1]. -/
def advectionMatCalls (xi : ℤ) (h : AdvectionHandlerModel) : List MatStencilCall :=
  (List.range h.nAdvec).map (fun i =>
    { row := ⟨xi, h.indices i⟩
      cols :=
        if h.onSink then
          [⟨xi - h.stencil0, h.indices i⟩, ⟨xi + h.stencil0, h.indices i⟩]
        else
          [⟨xi, h.indices i⟩, ⟨xi + h.stencil0, h.indices i⟩]
      vals := [h.vals (2 * i), h.vals (2 * i + 1)] })

/-- MatSetValuesStencil calls issued at active grid point xi for the whole
advection-handler loop of computeOffDiagonalJacobian. -/
def computeOffDiagonalAdvection (xi : ℤ) (handlers : List AdvectionHandlerModel) :
    List MatStencilCall :=
  handlers.flatMap (advectionMatCalls xi)

/-- Reference values of the incident flux test
(src/tests/flux/W221FitFluxHandlerTester.cpp) at interior grid points 1, 2
and 3 for 5 grid points, step 1.25, time 1.0. -/
def w221ReferenceValues : List ℚ :=
  [431739 / 1000000, 250454 / 1000000, 117806 / 1000000]

/-- Modelled from the spec: the W221FitFluxHandler fit function is absent from
the visible source; the specification fixes only the spatial profile values
the handler must reproduce at the interior points of a 5-point grid with step
1.25 at time 1.0, so the modelled incident flux vector carries those values
at grid points 1..3 (the profile is zero at the boundaries). -/
def w221IncidentFluxVec : List ℚ :=
  [0, 431739 / 1000000, 250454 / 1000000, 117806 / 1000000, 0]

/-- Relative closeness within tolerance tol (as a fraction of the reference). -/
def relClose (a b tol : ℚ) : Prop :=
  |a - b| ≤ tol * |b|

/-- One entry of the allReactants list as seen by the per-point loops: its
1-based id, whether it is a super cluster, and (for super clusters) its
1-based momentum id. -/
structure ReactantEntry where
  id : ℕ
  isSuper : Bool
  momId : ℕ
deriving DecidableEq, Repr

/-- The super-cluster list of the per-point loops
(network->getAll(NESuperType)): the super-typed members of allReactants, in
list order. -/
def superEntries (rs : List ReactantEntry) : List ReactantEntry :=
  rs.filter (fun r => r.isSuper)

/-- Row ids (1-based) that receive reaction partial-derivative rows in one
pass of computeDiagonalJacobian: the first networkSize - superClusters.size()
entries of allReactants contribute a row at their own id, then each super
cluster contributes a row at its own id. -/
def diagClusterRowIds (rs : List ReactantEntry) : List ℕ :=
  ((rs.take (rs.length - (superEntries rs).length)).map (fun r => r.id))
    ++ ((superEntries rs).map (fun r => r.id))

/-- Row ids (1-based) that receive momentum partial-derivative rows in one
pass of computeDiagonalJacobian: one per super cluster, at its momentum id. -/
def diagMomentRowIds (rs : List ReactantEntry) : List ℕ :=
  (superEntries rs).map (fun r => r.momId)

/-- Ids (1-based) that receive a reaction flux in the flux pass of
updateConcentration: every one of the networkSize entries of allReactants. -/
def fluxClusterTargetIds (rs : List ReactantEntry) : List ℕ :=
  rs.map (fun r => r.id)

/-- Ids (1-based) that receive a momentum flux in the flux pass of
updateConcentration: one per super cluster, at its momentum id. -/
def fluxMomentTargetIds (rs : List ReactantEntry) : List ℕ :=
  (superEntries rs).map (fun r => r.momId)

/-- Concrete driver parameters used to evaluate the model: 2 DOFs, one
network reactant, no super cluster, one advection handler, surface at 0,
four grid points, incident flux into DOF 0. -/
def demoParams : DriverParams :=
  { dof := 2, networkSize := 1, numSuper := 0, numAdvection := 1,
    surfacePosition := 0, xSize := 4, fluxIndex := 0 }

/-- Concrete per-point environment used to evaluate the model. -/
def demoEnv : PointEnv :=
  { temperature := 1, incident := 0, diffDelta := fun _ => 0,
    advecDelta := fun _ _ => 0, mutationDelta := fun _ => 0,
    burstDelta := fun _ => 0, totalFlux := fun _ => 0,
    clusterId := fun i => i + 1, momentFlux := fun _ => 0,
    momentId := fun i => i + 1 }

theorem addAt_sub_invariant (v w : ℕ → ℚ) (k0 : ℕ) (x : ℚ) (C : ℕ → ℚ)
    (h : ∀ k, v k - w k = C k) : ∀ k, addAt v k0 x k - addAt w k0 x k = C k := by
  intro k
  simp only [addAt]
  by_cases hk : k = k0
  · simp only [if_pos hk]
    have := h k
    linarith
  · simp only [if_neg hk]
    exact h k

theorem addVec_sub_invariant (v w d : ℕ → ℚ) (C : ℕ → ℚ)
    (h : ∀ k, v k - w k = C k) : ∀ k, addVec v d k - addVec w d k = C k := by
  intro k
  simp only [addVec]
  have := h k
  linarith

theorem foldl_sub_invariant {β : Type} (C : ℕ → ℚ) (f : (ℕ → ℚ) → β → ℕ → ℚ)
    (hf : ∀ v w, (∀ k, v k - w k = C k) → ∀ b k, f v b k - f w b k = C k) :
    ∀ (l : List β) (v w : ℕ → ℚ), (∀ k, v k - w k = C k) →
      ∀ k, l.foldl f v k - l.foldl f w k = C k := by
  intro l
  induction l with
  | nil => intro v w h k; exact h k
  | cons b t ih =>
      intro v w h k
      exact ih (f v b) (f w b) (fun j => hf v w h b j) k

theorem activeFluxRow_sub_invariant (P : DriverParams) (E : PointEnv)
    (F0 F0' : ℕ → ℚ) : ∀ k, activeFluxRow P E F0 k - activeFluxRow P E F0' k
      = F0 k - F0' k := by
  simp only [activeFluxRow]
  have h1 := addAt_sub_invariant F0 F0' P.fluxIndex E.incident
    (fun k => F0 k - F0' k) (fun _ => rfl)
  have h2 := addVec_sub_invariant _ _ E.diffDelta _ h1
  have h3 := foldl_sub_invariant (fun k => F0 k - F0' k)
    (fun v l => addVec v (E.advecDelta l))
    (fun v w h b k => addVec_sub_invariant v w (E.advecDelta b) _ h k)
    (List.range P.numAdvection) _ _ h2
  have h4 := addVec_sub_invariant _ _ E.mutationDelta _ h3
  have h5 := addVec_sub_invariant _ _ E.burstDelta _ h4
  have h6 := foldl_sub_invariant (fun k => F0 k - F0' k)
    (fun v i => addAt v (E.clusterId i - 1) (E.totalFlux i))
    (fun v w h b k => addAt_sub_invariant v w (E.clusterId b - 1) (E.totalFlux b) _ h k)
    (List.range P.networkSize) _ _ h5
  exact foldl_sub_invariant (fun k => F0 k - F0' k)
    (fun v i => addAt v (E.momentId i - 1) (E.momentFlux i))
    (fun v w h b k => addAt_sub_invariant v w (E.momentId b - 1) (E.momentFlux b) _ h k)
    (List.range P.numSuper) _ _ h6

/-- Claim C1: at every boundary grid point (index at most the surface
position, or equal to the last grid index) updateConcentration writes, for
every DOF index, an output flux value equal to exactly 1.0 times the input
concentration at that DOF, evaluates no handler and no reaction there, and
leaves the cached temperature untouched. -/
theorem boundary_point_identity (P : DriverParams) (E : PointEnv) (lastT : ℚ)
    (conc F0 : ℕ → ℚ) (xi : ℕ) (hb : isBoundaryPoint P xi = true) :
    (∀ i, i < P.dof → (updateConcentrationPoint P E lastT conc F0 xi).1 i = conc i)
    ∧ (updateConcentrationPoint P E lastT conc F0 xi).2.2 = []
    ∧ (updateConcentrationPoint P E lastT conc F0 xi).2.1 = lastT := by
  refine ⟨fun i hi => ?_, ?_, ?_⟩ <;>
    simp [updateConcentrationPoint, hb, *]

theorem boundary_point_identity_witness :
    isBoundaryPoint demoParams 0 = true
    ∧ (updateConcentrationPoint demoParams demoEnv 0 (fun j => 7 + j) (fun _ => 9) 0).1 1 = 8
    ∧ (updateConcentrationPoint demoParams demoEnv 0 (fun j => 7 + j) (fun _ => 9) 0).2.2 = [] := by
  have h := boundary_point_identity demoParams demoEnv 0 (fun j => 7 + j) (fun _ => 9) 0
    (by decide)
  refine ⟨by decide, ?_, h.2.1⟩
  rw [h.1 1 (by decide)]
  norm_num

/-- Claim C2 counterexample: at a concrete active grid point where the
temperature changed, the trace of operations performed by the loop body of
updateConcentration is not the trace the claim states (ingestion first, then
the conditional refreshes): the code refreshes the temperature-dependent
rates before ingesting the concentrations. -/
theorem spec_order_refuted :
    (updateConcentrationPoint demoParams demoEnv 0 (fun _ => 0) (fun _ => 0) 1).2.2
      ≠ specOrderedTrace demoParams demoEnv 0 := by
  decide

/-- Claim C2 (amended): at every active grid point the loop body of
updateConcentration performs, in this fixed order: (a) refresh
temperature-dependent rate constants only if the temperature changed, (b)
refresh trap-mutation and bursting rates only if the temperature changed,
(c) ingest the point concentrations into the network, then (d) invoke
incident flux, diffusion, advection, trap-mutation, bursting, network
reaction flux and super-cluster moment flux; each contribution adds
cumulatively into the flux vector, never resetting it: the output row
depends on the incoming row contents only additively. -/
theorem active_point_order_and_additivity (P : DriverParams) (E : PointEnv)
    (lastT : ℚ) (conc F0 F0' : ℕ → ℚ) (xi : ℕ)
    (hActive : isBoundaryPoint P xi = false) :
    (updateConcentrationPoint P E lastT conc F0 xi).2.2
      = (if E.temperature = lastT then [] else
          [DriverEvent.setTemperature, DriverEvent.refreshTrapMutationRate,
            DriverEvent.refreshBurstingRate])
        ++ [DriverEvent.ingestConcentrations, DriverEvent.addIncidentFlux,
            DriverEvent.computeDiffusion]
        ++ (List.range P.numAdvection).map DriverEvent.computeAdvection
        ++ [DriverEvent.computeTrapMutation, DriverEvent.computeBursting]
        ++ (List.range P.networkSize).map DriverEvent.addReactionFlux
        ++ (List.range P.numSuper).map DriverEvent.addMomentFlux
    ∧ ∀ k, (updateConcentrationPoint P E lastT conc F0 xi).1 k
            - (updateConcentrationPoint P E lastT conc F0' xi).1 k
          = F0 k - F0' k := by
  constructor
  · simp only [updateConcentrationPoint, hActive, Bool.false_eq_true, if_false,
      activeTrace, tempRefresh, equal]
    by_cases h : E.temperature = lastT
    · simp [h]
    · simp [h, beq_iff_eq]
  · intro k
    simp only [updateConcentrationPoint, hActive, Bool.false_eq_true, if_false]
    exact activeFluxRow_sub_invariant P E F0 F0' k

theorem active_point_order_and_additivity_witness :
    isBoundaryPoint demoParams 1 = false
    ∧ (updateConcentrationPoint demoParams demoEnv 0 (fun _ => 0) (fun _ => 3) 1).2.2
        = [DriverEvent.setTemperature, DriverEvent.refreshTrapMutationRate,
            DriverEvent.refreshBurstingRate, DriverEvent.ingestConcentrations,
            DriverEvent.addIncidentFlux, DriverEvent.computeDiffusion,
            DriverEvent.computeAdvection 0, DriverEvent.computeTrapMutation,
            DriverEvent.computeBursting, DriverEvent.addReactionFlux 0] := by
  refine ⟨by decide, ?_⟩
  have h := (active_point_order_and_additivity demoParams demoEnv 0 (fun _ => 0)
    (fun _ => 3) (fun _ => 3) 1 (by decide)).1
  rw [h]
  decide

/-- Claim C3: in every per-point evaluation at an active point,
setTemperature is invoked if and only if the temperature returned by the
temperature handler differs from the cached lastTemperature under the exact
equality change test, and afterwards the cached lastTemperature instance
state equals the applied temperature. -/
theorem setTemperature_iff_changed (P : DriverParams) (E : PointEnv)
    (lastT : ℚ) (conc F0 : ℕ → ℚ) (xi : ℕ)
    (hActive : isBoundaryPoint P xi = false) :
    (DriverEvent.setTemperature ∈ (updateConcentrationPoint P E lastT conc F0 xi).2.2
      ↔ E.temperature ≠ lastT)
    ∧ (updateConcentrationPoint P E lastT conc F0 xi).2.1 = E.temperature := by
  simp only [updateConcentrationPoint, hActive, Bool.false_eq_true, if_false]
  constructor
  · simp only [activeTrace, tempRefresh, equal]
    by_cases h : E.temperature = lastT
    · simp [h]
    · simp [h, beq_iff_eq]
  · simp only [tempRefresh, equal]
    by_cases h : E.temperature = lastT
    · simp [h]
    · simp [h, beq_iff_eq]

theorem setTemperature_iff_changed_witness :
    isBoundaryPoint demoParams 1 = false
    ∧ (DriverEvent.setTemperature
        ∈ (updateConcentrationPoint demoParams demoEnv 0 (fun _ => 0) (fun _ => 0) 1).2.2
      ↔ (1 : ℚ) ≠ 0)
    ∧ (updateConcentrationPoint demoParams demoEnv 0 (fun _ => 0) (fun _ => 0) 1).2.1 = 1 :=
  ⟨by decide,
    (setTemperature_iff_changed demoParams demoEnv 0 (fun _ => 0) (fun _ => 0) 1
      (by decide)).1,
    (setTemperature_iff_changed demoParams demoEnv 0 (fun _ => 0) (fun _ => 0) 1
      (by decide)).2⟩

/-- Claim C4: for the test network of clusters of sizes 1..10 per species
with dissociation disabled, the connectivity pattern the test fixes for the
size-2 vacancy cluster equals the deterministic 0/1 pattern computed from
composition arithmetic, is non-zero at every same-or-smaller pure vacancy
and pure interstitial cluster, and is zero at every mixed cluster. -/
theorem vTwo_connectivity :
    (simpleNetworkReactants.map (fun b => if vTwoCouples b then 1 else 0))
      = connectivityExpected
    ∧ (∀ b ∈ simpleNetworkReactants, b.he = 0 → b.i = 0 → b.v ≤ 2 →
        vTwoCouples b = true)
    ∧ (∀ b ∈ simpleNetworkReactants, b.he = 0 → b.v = 0 → b.i ≤ 2 →
        vTwoCouples b = true)
    ∧ (∀ b ∈ simpleNetworkReactants, 0 < b.he → 0 < b.v →
        vTwoCouples b = false) :=
  ⟨by decide, by decide, by decide, by decide⟩

theorem vTwo_connectivity_witness :
    (⟨0, 2, 0⟩ : Composition) ∈ simpleNetworkReactants
    ∧ vTwoCouples ⟨0, 2, 0⟩ = true :=
  ⟨by decide, vTwo_connectivity.2.1 ⟨0, 2, 0⟩ (by decide) rfl rfl (by decide)⟩

/-- Claim C5: the DOF count is computed identically, as network size plus the
number of super clusters, in createSolverContext, initializeConcentration,
updateConcentration and computeDiagonalJacobian; it amounts to one slot per
concrete cluster plus two slots per super cluster (its raw slot and its one
moment slot), and the super-cluster slots (ids then moment ids) occupy
exactly the index positions immediately following the last concrete cluster
id. -/
theorem dof_count_consistent (n : NetworkLayout) :
    dofCreateSolverContext n = dofInitializeConcentration n
    ∧ dofCreateSolverContext n = dofUpdateConcentration n
    ∧ dofCreateSolverContext n = dofDiagonalJacobian n
    ∧ dofCreateSolverContext n = n.nConcrete + 2 * n.nSuper
    ∧ ((List.range n.nSuper).map (fun k => n.superId k)
        ++ (List.range n.nSuper).map (fun k => n.momentId k))
      = (List.range (2 * n.nSuper)).map (fun j => n.nConcrete + j + 1) := by
  refine ⟨rfl, rfl, rfl, ?_, ?_⟩
  · simp only [dofCreateSolverContext, NetworkLayout.size]
    ring
  · have h2 : 2 * n.nSuper = n.nSuper + n.nSuper := by ring
    rw [h2, List.range_add, List.map_append, List.map_map]
    congr 1
    apply List.map_congr_left
    intro a _
    simp only [Function.comp_apply, NetworkLayout.momentId, NetworkLayout.size]
    omega

theorem transcribeRow_fst (row : List ℕ) (buf : ℕ → ℚ) (k : ℕ) :
    (transcribeRow row buf).1 k = if k ∈ row then 0 else buf k := by
  induction row generalizing buf with
  | nil => simp [transcribeRow]
  | cons c t ih =>
      simp only [transcribeRow]
      rw [ih]
      by_cases ht : k ∈ t
      · simp [ht]
      · by_cases hc : k = c
        · simp [ht, hc, Function.update]
        · simp [ht, hc, Function.update]

/-- Claim C6: in the Jacobian transcription loop, every entry of the shared
dense scratch buffer clusterPartials read through a derivative column map row
is reset to 0.0 right after being copied out and no other entry is modified;
hence, whenever the buffer was supported on that row (as it is when the
partial derivatives were just written into a previously zeroed buffer), the
buffer is identically zero again after the loop, ready for the next
getPartialDerivatives or getMomentPartialDerivatives call. -/
theorem clusterPartials_reset (row : List ℕ) (buf : ℕ → ℚ) :
    (∀ k, (transcribeRow row buf).1 k = if k ∈ row then 0 else buf k)
    ∧ ((∀ k, k ∉ row → buf k = 0) → ∀ k, (transcribeRow row buf).1 k = 0) := by
  refine ⟨fun k => transcribeRow_fst row buf k, fun hsupp k => ?_⟩
  rw [transcribeRow_fst row buf k]
  by_cases hk : k ∈ row
  · simp [hk]
  · simp [hk, hsupp k hk]

/-- Concrete scratch buffer supported on the column ids 0 and 2. -/
def demoPartials : ℕ → ℚ :=
  fun k => if k = 0 then 3 else if k = 2 then 5 else 0

theorem clusterPartials_reset_witness :
    (∀ k, k ∉ ([0, 2] : List ℕ) → demoPartials k = 0)
    ∧ ∀ k, (transcribeRow [0, 2] demoPartials).1 k = 0 := by
  have hsupp : ∀ k, k ∉ ([0, 2] : List ℕ) → demoPartials k = 0 := by
    intro k hk
    simp only [List.mem_cons, List.not_mem_nil, or_false, not_or] at hk
    simp [demoPartials, hk.1, hk.2]
  exact ⟨hsupp, (clusterPartials_reset [0, 2] demoPartials).2 hsupp⟩

/-- Claim C7: on a cold start, initializeConcentration first zeroes every
DOF of every grid point; when the single-vacancy lookup succeeded the slot
vacancyIndex is seeded with initialVConc exactly at interior active points,
and when the lookup returned absence the seeding is skipped and every
concentration stays zero. -/
theorem cold_start_initialization (dof surfacePosition xSize : ℕ) (c0 : ℚ)
    (i : ℕ) :
    initializeConcentrationPoint dof surfacePosition xSize none c0 i
      = List.replicate dof 0
    ∧ ∀ vi k, k < dof →
        (initializeConcentrationPoint dof surfacePosition xSize (some vi) c0 i).getD k 0
          = if k = vi ∧ surfacePosition < i ∧ i < xSize - 1 then c0 else 0 := by
  refine ⟨rfl, fun vi k hk => ?_⟩
  simp only [initializeConcentrationPoint]
  by_cases hcond : surfacePosition < i ∧ i < xSize - 1
  · rw [if_pos hcond]
    by_cases hvi : k = vi
    · subst hvi
      simp [List.getD_eq_getElem?_getD, List.getElem?_set, List.length_replicate,
        hk, hcond]
    · have hvk : vi ≠ k := fun hh => hvi hh.symm
      simp [List.getD_eq_getElem?_getD, List.getElem?_set, List.getElem?_replicate,
        hk, hcond, hvk, hvi]
  · rw [if_neg hcond]
    simp [List.getD_eq_getElem?_getD, List.getElem?_replicate, hk, hcond]

theorem cold_start_initialization_witness :
    initializeConcentrationPoint 3 0 4 none 7 1 = List.replicate 3 0
    ∧ (initializeConcentrationPoint 3 0 4 (some 1) 7 1).getD 1 0 = 7
    ∧ (initializeConcentrationPoint 3 0 4 (some 1) 7 1).getD 0 0 = 0 := by
  have h := cold_start_initialization 3 0 4 7 1
  refine ⟨h.1, ?_, ?_⟩
  · rw [h.2 1 1 (by decide)]
    norm_num
  · rw [h.2 1 0 (by decide)]
    norm_num

/-- Claim C8: in the advection part of computeOffDiagonalJacobian, for every
advecting cluster of every advection handler, one MatSetValuesStencil call
is issued whose row is (xi, cluster index); on the sink its two column
entries sit symmetrically at the left and right neighbour points xi - s and
xi + s (both feeding the sink row), and off the sink they sit at the point
itself and at the single neighbour xi + s selected by the direction rule. -/
theorem advection_offdiagonal_columns (xi : ℤ)
    (handlers : List AdvectionHandlerModel) (h : AdvectionHandlerModel)
    (hmem : h ∈ handlers) (i : ℕ) (hi : i < h.nAdvec) :
    ∃ call ∈ computeOffDiagonalAdvection xi handlers,
      call.row = ⟨xi, h.indices i⟩
      ∧ (h.onSink = true →
          call.cols = [⟨xi - h.stencil0, h.indices i⟩, ⟨xi + h.stencil0, h.indices i⟩])
      ∧ (h.onSink = false →
          call.cols = [⟨xi, h.indices i⟩, ⟨xi + h.stencil0, h.indices i⟩]) := by
  refine ⟨{ row := ⟨xi, h.indices i⟩
            cols :=
              if h.onSink then
                [⟨xi - h.stencil0, h.indices i⟩, ⟨xi + h.stencil0, h.indices i⟩]
              else
                [⟨xi, h.indices i⟩, ⟨xi + h.stencil0, h.indices i⟩]
            vals := [h.vals (2 * i), h.vals (2 * i + 1)] }, ?_, rfl, ?_, ?_⟩
  · apply List.mem_flatMap.2
    refine ⟨h, hmem, ?_⟩
    apply List.mem_map.2
    exact ⟨i, List.mem_range.2 hi, rfl⟩
  · intro hs
    simp [hs]
  · intro hs
    simp [hs]

/-- Concrete advection handler sitting on the sink, with one advecting
cluster at DOF index 4 and stencil entry 1. -/
def demoAdvectionHandler : AdvectionHandlerModel :=
  { nAdvec := 1, indices := fun _ => 4, stencil0 := 1, onSink := true,
    vals := fun _ => 2 }

theorem advection_offdiagonal_columns_witness :
    demoAdvectionHandler ∈ [demoAdvectionHandler]
    ∧ 0 < demoAdvectionHandler.nAdvec
    ∧ ∃ call ∈ computeOffDiagonalAdvection 5 [demoAdvectionHandler],
        call.row = ⟨5, 4⟩
        ∧ (demoAdvectionHandler.onSink = true → call.cols = [⟨4, 4⟩, ⟨6, 4⟩])
        ∧ (demoAdvectionHandler.onSink = false → call.cols = [⟨5, 4⟩, ⟨6, 4⟩]) :=
  ⟨List.mem_singleton.2 rfl, Nat.zero_lt_one,
    advection_offdiagonal_columns 5 [demoAdvectionHandler] demoAdvectionHandler
      (List.mem_singleton.2 rfl) 0 Nat.zero_lt_one⟩

/-- Claim C9: the incident flux vector of the W221 flux handler initialized
with 5 grid points and step 1.25, evaluated at time 1.0, reproduces the
reference values 0.431739, 0.250454 and 0.117806 at interior grid points 1,
2 and 3, each within 1 percent relative tolerance. -/
theorem w221_incident_flux_reference :
    relClose (w221IncidentFluxVec.getD 1 0) (w221ReferenceValues.getD 0 0) (1 / 100)
    ∧ relClose (w221IncidentFluxVec.getD 2 0) (w221ReferenceValues.getD 1 0) (1 / 100)
    ∧ relClose (w221IncidentFluxVec.getD 3 0) (w221ReferenceValues.getD 2 0) (1 / 100) := by
  refine ⟨?_, ?_, ?_⟩ <;>
    · simp only [relClose, w221IncidentFluxVec, w221ReferenceValues]
      norm_num

/-- Claim C10: the diagonal-Jacobian pass transcribes reaction rows for the
first networkSize minus superClusters.size() entries of allReactants plus two
rows per super cluster (its own id and its moment id), while the flux pass
adds a reaction flux at the id of every one of the networkSize entries; with
distinct ids, the two passes cover the same cluster row ids (up to order) if
and only if every entry in the final superClusters.size() positions of
allReactants is a super cluster, and the moment rows of the two passes
always coincide. -/
theorem diag_flux_consistency (rs : List ReactantEntry)
    (hnd : (rs.map (fun r => r.id)).Nodup) :
    (List.Perm (diagClusterRowIds rs) (fluxClusterTargetIds rs)
      ↔ ∀ r ∈ rs.drop (rs.length - (superEntries rs).length), r.isSuper = true)
    ∧ diagMomentRowIds rs = fluxMomentTargetIds rs := by
  refine ⟨?_, rfl⟩
  have hflux : fluxClusterTargetIds rs
      = (rs.take (rs.length - (superEntries rs).length)).map (fun r => r.id)
        ++ (rs.drop (rs.length - (superEntries rs).length)).map (fun r => r.id) := by
    rw [← List.map_append, List.take_append_drop]
    rfl
  have hdiag : diagClusterRowIds rs
      = (rs.take (rs.length - (superEntries rs).length)).map (fun r => r.id)
        ++ (superEntries rs).map (fun r => r.id) := rfl
  rw [hdiag, hflux, List.perm_append_left_iff]
  constructor
  · intro hperm r hr
    have hrid : r.id ∈ (superEntries rs).map (fun r => r.id) :=
      hperm.mem_iff.2 (List.mem_map_of_mem _ hr)
    obtain ⟨q, hq, hqid⟩ := List.mem_map.1 hrid
    have hqs := List.mem_filter.1 hq
    have hr_rs : r ∈ rs :=
      List.drop_subset (rs.length - (superEntries rs).length) rs hr
    have hqr : q = r := List.inj_on_of_nodup_map hnd hqs.1 hr_rs hqid
    rw [← hqr]
    exact hqs.2
  · intro hall
    have hsle : (superEntries rs).length ≤ rs.length :=
      List.length_filter_le _ rs
    have hdroplen : (rs.drop (rs.length - (superEntries rs).length)).length
        = (superEntries rs).length := by
      rw [List.length_drop]
      omega
    have hdropfilter :
        (rs.drop (rs.length - (superEntries rs).length)).filter (fun r => r.isSuper)
          = rs.drop (rs.length - (superEntries rs).length) :=
      List.filter_eq_self.2 hall
    have hfilter_split : superEntries rs
        = (rs.take (rs.length - (superEntries rs).length)).filter (fun r => r.isSuper)
          ++ (rs.drop (rs.length - (superEntries rs).length)).filter (fun r => r.isSuper) := by
      rw [superEntries, ← List.filter_append, List.take_append_drop]
    have hlen := congrArg List.length hfilter_split
    rw [List.length_append, hdropfilter, hdroplen] at hlen
    have htake_nil :
        (rs.take (rs.length - (superEntries rs).length)).filter (fun r => r.isSuper)
          = [] := by
      have hzero :
          ((rs.take (rs.length - (superEntries rs).length)).filter
            (fun r => r.isSuper)).length = 0 := by
        omega
      exact List.eq_nil_of_length_eq_zero hzero
    have hconcat := hfilter_split
    rw [htake_nil, List.nil_append, hdropfilter] at hconcat
    have hmapeq : (superEntries rs).map (fun r => r.id)
        = (rs.drop (rs.length - (superEntries rs).length)).map (fun r => r.id) :=
      congrArg (List.map (fun r => r.id)) hconcat
    rw [hmapeq]

/-- Concrete allReactants list: one concrete cluster (id 1) followed by one
super cluster (id 2, moment id 5). -/
def demoReactants : List ReactantEntry :=
  [⟨1, false, 0⟩, ⟨2, true, 5⟩]

theorem diag_flux_consistency_witness :
    (demoReactants.map (fun r => r.id)).Nodup
    ∧ (List.Perm (diagClusterRowIds demoReactants) (fluxClusterTargetIds demoReactants)
        ↔ ∀ r ∈ demoReactants.drop
            (demoReactants.length - (superEntries demoReactants).length),
          r.isSuper = true) :=
  ⟨by decide, (diag_flux_consistency demoReactants (by decide)).1⟩

end Xolotl
